import Mathlib

/-!
Shallow embedding of `boa_tester/src/exec/js262.rs`: the `$262` test-harness
object (Harness Object Builder `init`, `create_realm`, `detach_array_buffer`,
`eval_script`).  Machine state (object heap, realm globals) is passed
explicitly; fallible host calls return `Except`.
-/

set_option autoImplicit false

namespace Js262

/-- Abstraction of an ECMAScript double for the purposes of SameValue:
NaN is one value equal to itself, and the two zeros are distinct values.
Other numbers are represented by their integer code. -/
inductive JsNumber where
  | nan
  | posZero
  | negZero
  | intVal (n : Int)
  deriving DecidableEq, Repr

/-- Embedding of `boa_engine::JsValue`.  Objects are heap references
(identified by a natural number), so reference identity is id equality. -/
inductive JsValue where
  | undefined
  | null
  | boolean (b : Bool)
  | number (n : JsNumber)
  | string (s : String)
  | object (id : Nat)
  deriving DecidableEq, Repr

/-- `JsValue::same_value`: the strict SameValue comparison.  Type tags must
match; NaN compares equal to NaN; `+0` and `-0` are different; objects
compare by reference identity. -/
def JsValue.same_value : JsValue → JsValue → Bool
  | .undefined, .undefined => true
  | .null, .null => true
  | .boolean a, .boolean b => a == b
  | .number a, .number b => a == b
  | .string a, .string b => a == b
  | .object a, .object b => a == b
  | _, _ => false

/-- `JsValue::as_object`: the object reference when the value is an object. -/
def JsValue.as_object : JsValue → Option Nat
  | .object id => some id
  | _ => none

/-- `JsValue::as_string`: the text when the value is a string. -/
def JsValue.as_string : JsValue → Option String
  | .string s => some s
  | _ => none

/-- `JsArgs::get_or_undefined`: the i-th argument, or `undefined` when absent. -/
def get_or_undefined (args : List JsValue) (i : Nat) : JsValue :=
  (args.get? i).getD JsValue.undefined

/-- Property attribute flags (`boa_engine::property::Attribute`). -/
structure PropertyAttr where
  writable : Bool
  enumerable : Bool
  configurable : Bool
  deriving DecidableEq, Repr

/-- `Attribute::empty()`: no flag set. -/
def attrEmpty : PropertyAttr := ⟨false, false, false⟩

/-- Modelled from the spec: `Attribute::default()` of the external
`boa_engine` crate — a data property is writable, enumerable and
configurable by default. -/
def attrDefault : PropertyAttr := ⟨true, true, true⟩

/-- The four native functions carried by the harness object. -/
inductive HostFunc where
  | createRealm
  | detachArrayBuffer
  | evalScript
  | gc
  deriving DecidableEq, Repr

/-- A property installed on the harness object by the `ObjectInitializer`
chain: either a native function with its name and declared arity, or a
data property with its attributes. -/
inductive HarnessProp where
  | func (name : String) (f : HostFunc) (length : Nat)
  | data (name : String) (value : JsValue) (attr : PropertyAttr)
  deriving DecidableEq, Repr

/-- Heap object payloads.  An `arrayBuffer` carries the three fields the
detacher touches: the backing-store reference (`none` = absent), the byte
length, and the detach key.  A `globalObj` carries its registered global
properties (name, value, attributes), most recent first.  A `harness`
object carries the properties built by `init`. -/
inductive ObjectData where
  | arrayBuffer (array_buffer_data : Option (List Nat))
      (array_buffer_byte_length : Nat) (array_buffer_detach_key : JsValue)
  | globalObj (props : List (String × JsValue × PropertyAttr))
  | harness (props : List HarnessProp)
  | ordinary
  deriving DecidableEq, Repr

/-- The object heap: object ids mapped to payloads, first match wins. -/
abbrev Heap := List (Nat × ObjectData)

/-- Look an object up in the heap. -/
def lookupObj : Heap → Nat → Option ObjectData
  | [], _ => none
  | (i, d) :: rest, j => if i = j then some d else lookupObj rest j

/-- Replace the payload of an existing object. -/
def updateObj : Heap → Nat → ObjectData → Heap
  | [], _, _ => []
  | (i, d) :: rest, j, e => if i = j then (i, e) :: rest else (i, d) :: updateObj rest j e

/-- Errors surfaced by the harness: the engine's type-error kind
(`JsNativeError::typ()`), its native syntax-error kind (`syn`, never
produced by this file's source), and opaque runtime errors propagated
from evaluation. -/
inductive JsError where
  | typeError (msg : String)
  | syn (msg : String)
  | runtime (v : JsValue)
  deriving DecidableEq, Repr

deriving instance DecidableEq for Except

/-- `detach_array_buffer`: the `$262.detachArrayBuffer` native function.
Resolves argument 0 to an object exposing array-buffer internals, checks
the stored detach key against argument 1 (or `undefined`) with SameValue,
then clears the backing store and the byte length and returns `null`.
On every error path the heap is returned unchanged. -/
def detach_array_buffer (args : List JsValue) (heap : Heap) :
    Except JsError JsValue × Heap :=
  match (args.get? 0).bind JsValue.as_object with
  | none => (.error (.typeError "The provided object was not an ArrayBuffer"), heap)
  | some bid =>
    match lookupObj heap bid with
    | some (.arrayBuffer _ _ k) =>
      let key := get_or_undefined args 1
      if ! JsValue.same_value k key then
        (.error (.typeError "Cannot detach array buffer with different key"), heap)
      else
        (.ok .null, updateObj heap bid (.arrayBuffer none 0 k))
    | _ => (.error (.typeError "The provided object was not an ArrayBuffer"), heap)

/-- Modelled from the spec: the hosting engine's parse-then-evaluate entry
points (`Context::parse` and `Context::eval` of the external `boa_engine`
crate).  `parse` yields the parser's diagnostic on failure; `eval` yields
whatever value or error evaluation of the text produces. -/
structure EngineCtx where
  parse : String → Except String Unit
  eval : String → Except JsError JsValue

/-- `eval_script`: the `$262.evalScript` native function.  A missing or
non-string argument yields `undefined`; a parse failure is re-wrapped as a
type error prefixed with "Uncaught Syntax Error: "; otherwise the result
is exactly what evaluation of the text produces. -/
def eval_script (ctx : EngineCtx) (args : List JsValue) : Except JsError JsValue :=
  match (args.get? 0).bind JsValue.as_string with
  | none => .ok .undefined
  | some source_text =>
    match ctx.parse source_text with
    | .error e => .error (.typeError ("Uncaught Syntax Error: " ++ e))
    | .ok _ => ctx.eval source_text

/-- Allocator state shared by all realms: the next fresh object id and the
heap.  Distinct allocations get distinct ids, which models reference
identity across realms. -/
structure World where
  nextId : Nat
  heap : Heap
  deriving DecidableEq, Repr

/-- Allocate a fresh object. -/
def alloc (w : World) (d : ObjectData) : Nat × World :=
  (w.nextId, ⟨w.nextId + 1, (w.nextId, d) :: w.heap⟩)

/-- A realm's execution context, reduced to what `init` reads from it:
its global object. -/
structure Context where
  globalObj : Nat
  deriving DecidableEq, Repr

/-- Modelled from the spec: `Context::default()` of the external
`boa_engine` crate — instantiates a brand-new, fully independent realm
with a fresh global object. -/
def Context.default (w : World) : Context × World :=
  let (gid, w1) := alloc w (.globalObj [])
  (⟨gid⟩, w1)

/-- `Context::register_global_property`: define a property on the realm's
global object with the given attributes. -/
def register_global_property (w : World) (gid : Nat) (name : String)
    (v : JsValue) (a : PropertyAttr) : World :=
  match lookupObj w.heap gid with
  | some (.globalObj ps) =>
      ⟨w.nextId, updateObj w.heap gid (.globalObj ((name, v, a) :: ps))⟩
  | _ => w

/-- `init`: the Harness Object Builder.  Builds the harness object with the
four native functions and the `global` data property, registers it on the
realm's global object under `$262` with empty attributes, and returns it. -/
def init (ctx : Context) (w : World) : Nat × World :=
  let global_obj := ctx.globalObj
  let (obj, w1) := alloc w (.harness
    [ .func "createRealm" .createRealm 0,
      .func "detachArrayBuffer" .detachArrayBuffer 2,
      .func "evalScript" .evalScript 1,
      .func "gc" .gc 0,
      .data "global" (.object global_obj) attrDefault ])
  let w2 := register_global_property w1 ctx.globalObj "$262" (.object obj) attrEmpty
  (obj, w2)

/-- `create_realm`: the `$262.createRealm` native function.  Creates a new
realm, installs the harness object on it via `init`, and returns that
harness object.  All arguments are ignored and the call never fails. -/
def create_realm (_args : List JsValue) (w : World) :
    Except JsError JsValue × World :=
  let (context, w1) := Context.default w
  let (js_262, w2) := init context w1
  (.ok (JsValue.object js_262), w2)

/-! Heap lemmas. -/

theorem lookupObj_updateObj_self (h : Heap) (i : Nat) (d e : ObjectData)
    (hl : lookupObj h i = some e) : lookupObj (updateObj h i d) i = some d := by
  induction h with
  | nil => simp [lookupObj] at hl
  | cons p rest ih =>
    obtain ⟨j, x⟩ := p
    by_cases hij : j = i
    · simp [lookupObj, updateObj, hij]
    · simp [lookupObj, updateObj, hij] at hl ⊢
      exact ih hl

theorem lookupObj_updateObj_other (h : Heap) (i j : Nat) (d : ObjectData)
    (hij : i ≠ j) : lookupObj (updateObj h i d) j = lookupObj h j := by
  induction h with
  | nil => simp [updateObj]
  | cons p rest ih =>
    obtain ⟨m, x⟩ := p
    by_cases hmi : m = i
    · subst hmi
      simp [lookupObj, updateObj, hij]
    · simp [lookupObj, updateObj, hmi]
      by_cases hmj : m = j
      · simp [hmj]
      · simp [hmj]
        exact ih

theorem updateObj_updateObj_self (h : Heap) (i : Nat) (d e : ObjectData) :
    updateObj (updateObj h i d) i e = updateObj h i e := by
  induction h with
  | nil => simp [updateObj]
  | cons p rest ih =>
    obtain ⟨m, x⟩ := p
    by_cases hmi : m = i
    · simp [updateObj, hmi]
    · simp [updateObj, hmi, ih]

/-! Concrete fixtures for witnesses and counterexamples. -/

/-- A heap holding one array buffer whose detach key is the string "right". -/
def bufRight : Heap := [(0, .arrayBuffer (some [1, 2, 3]) 3 (.string "right"))]

/-- A heap holding one array buffer whose detach key is the undefined sentinel. -/
def bufUndef : Heap := [(0, .arrayBuffer (some [7]) 1 .undefined)]

/-- A heap holding an array buffer plus an unrelated object. -/
def bufPair : Heap := [(0, .arrayBuffer (some [5]) 1 .undefined), (1, .ordinary)]

/-- Claim C1 counterexample: with a buffer whose detach key is "right" and the
key argument "wrong", the call fails with a type error, but its message is
"Cannot detach array buffer with different key" (capital C), not the
lower-case message the claim states. -/
theorem detach_mismatch_message_case :
    (detach_array_buffer [.object 0, .string "wrong"] bufRight).1 =
      .error (.typeError "Cannot detach array buffer with different key") ∧
    (detach_array_buffer [.object 0, .string "wrong"] bufRight).1 ≠
      .error (.typeError "cannot detach array buffer with different key") := by
  decide

/-- Claim C1 (amended): when argument 0 resolves to an array buffer whose
stored detach key is not SameValue-equal to the key argument (undefined when
omitted), the call fails with a type error whose message is
"Cannot detach array buffer with different key", and the heap — in
particular the buffer and its byte length — is left untouched. -/
theorem detach_mismatched_key_err (args : List JsValue) (heap : Heap)
    (bid : Nat) (d : Option (List Nat)) (len : Nat) (k : JsValue)
    (h0 : (args[0]?).bind JsValue.as_object = some bid)
    (h1 : lookupObj heap bid = some (.arrayBuffer d len k))
    (h2 : JsValue.same_value k (get_or_undefined args 1) = false) :
    detach_array_buffer args heap =
      (.error (.typeError "Cannot detach array buffer with different key"),
        heap) := by
  simp [detach_array_buffer, h0, h1, h2]

/-- Witness for C1 at a concrete buffer and mismatched key. -/
theorem detach_mismatched_key_err_witness :
    detach_array_buffer [.object 0, .string "wrong"] bufRight =
      (.error (.typeError "Cannot detach array buffer with different key"),
        bufRight) :=
  detach_mismatched_key_err [.object 0, .string "wrong"] bufRight 0
    (some [1, 2, 3]) 3 (.string "right") rfl rfl (by decide)

/-- Claim C2: when argument 0 resolves to an array buffer whose stored detach
key is SameValue-equal to the key argument (undefined when omitted), the call
returns null, the backing store becomes absent and the byte length becomes 0. -/
theorem detach_matching_key_ok (args : List JsValue) (heap : Heap)
    (bid : Nat) (d : Option (List Nat)) (len : Nat) (k : JsValue)
    (h0 : (args[0]?).bind JsValue.as_object = some bid)
    (h1 : lookupObj heap bid = some (.arrayBuffer d len k))
    (h2 : JsValue.same_value k (get_or_undefined args 1) = true) :
    (detach_array_buffer args heap).1 = .ok .null ∧
    lookupObj (detach_array_buffer args heap).2 bid =
      some (.arrayBuffer none 0 k) := by
  have hup := lookupObj_updateObj_self heap bid (.arrayBuffer none 0 k) _ h1
  simp [detach_array_buffer, h0, h1, h2, hup]

/-- Witness for C2: detach with no key argument on a buffer whose detach key
is the undefined sentinel. -/
theorem detach_matching_key_ok_witness :
    (detach_array_buffer [.object 0] bufUndef).1 = .ok .null ∧
    lookupObj (detach_array_buffer [.object 0] bufUndef).2 0 =
      some (.arrayBuffer none 0 .undefined) :=
  detach_matching_key_ok [.object 0] bufUndef 0 (some [7]) 1 .undefined
    rfl rfl (by decide)

/-- Claim C7 counterexample: `detachArrayBuffer(42)` fails with a type error,
but its message is "The provided object was not an ArrayBuffer" (capital T),
not the lower-case message the claim states. -/
theorem detach_non_buffer_message_case :
    (detach_array_buffer [.number (.intVal 42)] []).1 =
      .error (.typeError "The provided object was not an ArrayBuffer") ∧
    (detach_array_buffer [.number (.intVal 42)] []).1 ≠
      .error (.typeError "the provided object was not an ArrayBuffer") := by
  decide

/-- Claim C7 (amended): when argument 0 is missing, is not an object, or is an
object without array-buffer internals, the call fails with a type error whose
message is "The provided object was not an ArrayBuffer", whatever the key
argument, and the heap is unchanged. -/
theorem detach_non_buffer_err (args : List JsValue) (heap : Heap)
    (h : ((args[0]?).bind JsValue.as_object = none) ∨
      (∃ bid, (args[0]?).bind JsValue.as_object = some bid ∧
        ∀ d len k, lookupObj heap bid ≠ some (.arrayBuffer d len k))) :
    detach_array_buffer args heap =
      (.error (.typeError "The provided object was not an ArrayBuffer"),
        heap) := by
  rcases h with h0 | ⟨bid, h0, h1⟩
  · simp [detach_array_buffer, h0]
  · cases hd : lookupObj heap bid with
    | none => simp [detach_array_buffer, h0, hd]
    | some d =>
      cases d with
      | arrayBuffer a b c => exact absurd hd (h1 a b c)
      | globalObj ps => simp [detach_array_buffer, h0, hd]
      | harness ps => simp [detach_array_buffer, h0, hd]
      | ordinary => simp [detach_array_buffer, h0, hd]

/-- Witness for C7 at the number 42 with a key argument present. -/
theorem detach_non_buffer_err_witness :
    detach_array_buffer [.number (.intVal 42), .string "k"] [] =
      (.error (.typeError "The provided object was not an ArrayBuffer"),
        []) :=
  detach_non_buffer_err [.number (.intVal 42), .string "k"] [] (.inl rfl)

/-- Claim C8: detaching is idempotent in its outward effect — with a matching
key, two successive calls both return null and the heap after the second
call equals the heap after the first. -/
theorem detach_idempotent (args : List JsValue) (heap : Heap)
    (bid : Nat) (d : Option (List Nat)) (len : Nat) (k : JsValue)
    (h0 : (args[0]?).bind JsValue.as_object = some bid)
    (h1 : lookupObj heap bid = some (.arrayBuffer d len k))
    (h2 : JsValue.same_value k (get_or_undefined args 1) = true) :
    (detach_array_buffer args heap).1 = .ok .null ∧
    (detach_array_buffer args (detach_array_buffer args heap).2).1 =
      .ok .null ∧
    (detach_array_buffer args (detach_array_buffer args heap).2).2 =
      (detach_array_buffer args heap).2 := by
  have hfst : detach_array_buffer args heap =
      (.ok .null, updateObj heap bid (.arrayBuffer none 0 k)) := by
    simp [detach_array_buffer, h0, h1, h2]
  have hl2 : lookupObj (updateObj heap bid (.arrayBuffer none 0 k)) bid =
      some (.arrayBuffer none 0 k) :=
    lookupObj_updateObj_self heap bid (.arrayBuffer none 0 k) _ h1
  have hsnd : detach_array_buffer args
        (updateObj heap bid (.arrayBuffer none 0 k)) =
      (.ok .null, updateObj (updateObj heap bid (.arrayBuffer none 0 k)) bid
        (.arrayBuffer none 0 k)) := by
    simp [detach_array_buffer, h0, hl2, h2]
  rw [hfst]
  simp [hsnd, updateObj_updateObj_self]

/-- Witness for C8 on a concrete buffer with matching (undefined) key. -/
theorem detach_idempotent_witness :
    (detach_array_buffer [.object 0] bufUndef).1 = .ok .null ∧
    (detach_array_buffer [.object 0]
      (detach_array_buffer [.object 0] bufUndef).2).1 = .ok .null ∧
    (detach_array_buffer [.object 0]
      (detach_array_buffer [.object 0] bufUndef).2).2 =
      (detach_array_buffer [.object 0] bufUndef).2 :=
  detach_idempotent [.object 0] bufUndef 0 (some [7]) 1 .undefined
    rfl rfl (by decide)

/-- Claim C10: frame condition of the detacher.  On any error the heap is
returned unchanged; on success the target buffer keeps its stored detach
key (only backing store and byte length change) and every other object is
untouched. -/
theorem detach_frame (args : List JsValue) (heap : Heap) :
    ((detach_array_buffer args heap).1.isOk = false →
      (detach_array_buffer args heap).2 = heap) ∧
    (∀ bid d len k,
      (args[0]?).bind JsValue.as_object = some bid →
      lookupObj heap bid = some (.arrayBuffer d len k) →
      (detach_array_buffer args heap).1.isOk = true →
      lookupObj (detach_array_buffer args heap).2 bid =
        some (.arrayBuffer none 0 k) ∧
      ∀ j, j ≠ bid →
        lookupObj (detach_array_buffer args heap).2 j = lookupObj heap j) := by
  constructor
  · intro hko
    cases h0 : (args[0]?).bind JsValue.as_object with
    | none => simp [detach_array_buffer, h0]
    | some bid =>
      cases hd : lookupObj heap bid with
      | none => simp [detach_array_buffer, h0, hd]
      | some d =>
        cases d with
        | arrayBuffer a b k =>
          by_cases hk : JsValue.same_value k (get_or_undefined args 1)
          · have heq : detach_array_buffer args heap =
                (.ok .null, updateObj heap bid (.arrayBuffer none 0 k)) := by
              simp [detach_array_buffer, h0, hd, hk]
            rw [heq] at hko
            simp [Except.isOk, Except.toBool] at hko
          · simp [detach_array_buffer, h0, hd, hk]
        | globalObj ps => simp [detach_array_buffer, h0, hd]
        | harness ps => simp [detach_array_buffer, h0, hd]
        | ordinary => simp [detach_array_buffer, h0, hd]
  · intro bid d len k h0 h1 hok
    by_cases hk : JsValue.same_value k (get_or_undefined args 1)
    · have heq : detach_array_buffer args heap =
          (.ok .null, updateObj heap bid (.arrayBuffer none 0 k)) := by
        simp [detach_array_buffer, h0, h1, hk]
      rw [heq]
      exact ⟨lookupObj_updateObj_self heap bid _ _ h1,
        fun j hj => lookupObj_updateObj_other heap bid j _ (fun he => hj he.symm)⟩
    · have heq : detach_array_buffer args heap =
          (.error (.typeError "Cannot detach array buffer with different key"),
            heap) := by
        simp [detach_array_buffer, h0, h1, hk]
      rw [heq] at hok
      simp [Except.isOk, Except.toBool] at hok

/-- Witness for C10 on a two-object heap: after a successful detach the
buffer keeps its detach key with backing store absent and length 0, and
the unrelated neighbouring object is untouched. -/
theorem detach_frame_witness :
    lookupObj (detach_array_buffer [.object 0] bufPair).2 0 =
      some (.arrayBuffer none 0 .undefined) ∧
    lookupObj (detach_array_buffer [.object 0] bufPair).2 1 =
      lookupObj bufPair 1 :=
  have h := (detach_frame [.object 0] bufPair).2 0 (some [5]) 1 .undefined
    rfl rfl (by decide)
  ⟨h.1, h.2 1 (by decide)⟩

/-- A concrete engine used to instantiate the evalScript theorems: it
parses and evaluates "1+1" and rejects everything else at parse time. -/
def toyEngine : EngineCtx where
  parse s := if s = "1+1" then .ok () else .error "unexpected token"
  eval s := if s = "1+1" then .ok (.number (.intVal 2)) else .error (.runtime .undefined)

/-- Claim C4: when argument 0 is absent or not a string value, evalScript
returns undefined and raises no error. -/
theorem eval_script_non_string (ctx : EngineCtx) (args : List JsValue)
    (h : (args[0]?).bind JsValue.as_string = none) :
    eval_script ctx args = .ok .undefined := by
  simp [eval_script, h]

/-- Witness for C4: no argument at all, and a non-string argument. -/
theorem eval_script_non_string_witness :
    eval_script toyEngine [] = .ok .undefined ∧
    eval_script toyEngine [.number (.intVal 42)] = .ok .undefined :=
  ⟨eval_script_non_string toyEngine [] rfl,
   eval_script_non_string toyEngine [.number (.intVal 42)] rfl⟩

/-- Claim C3: when argument 0 is a string whose text fails to parse,
evalScript fails with a type error — not the native syntax-error kind —
whose message is the parser diagnostic prefixed with
"Uncaught Syntax Error: ". -/
theorem eval_script_syn_err (ctx : EngineCtx) (args : List JsValue)
    (s e : String)
    (h0 : (args[0]?).bind JsValue.as_string = some s)
    (h1 : ctx.parse s = .error e) :
    eval_script ctx args =
      .error (.typeError ("Uncaught Syntax Error: " ++ e)) ∧
    ∀ m, eval_script ctx args ≠ .error (.syn m) := by
  have heq : eval_script ctx args =
      .error (.typeError ("Uncaught Syntax Error: " ++ e)) := by
    simp [eval_script, h0, h1]
  exact ⟨heq, fun m hm => by rw [heq] at hm; exact absurd hm (by simp)⟩

/-- Witness for C3 on a source text the toy engine rejects. -/
theorem eval_script_syn_err_witness :
    eval_script toyEngine [.string "bad"] =
      .error (.typeError "Uncaught Syntax Error: unexpected token") :=
  (eval_script_syn_err toyEngine [.string "bad"] "bad" "unexpected token"
    rfl (by decide)).1

/-- Claim C5: when argument 0 is a string whose text parses, evalScript
returns exactly what evaluation of the text produces — value or error,
un-rewrapped. -/
theorem eval_script_passthrough (ctx : EngineCtx) (args : List JsValue)
    (s : String)
    (h0 : (args[0]?).bind JsValue.as_string = some s)
    (h1 : ctx.parse s = .ok ()) :
    eval_script ctx args = ctx.eval s := by
  simp [eval_script, h0, h1]

/-- Witness for C5: evaluating "1+1" yields the value 2. -/
theorem eval_script_passthrough_witness :
    eval_script toyEngine [.string "1+1"] = .ok (.number (.intVal 2)) := by
  rw [eval_script_passthrough toyEngine [.string "1+1"] "1+1" rfl (by decide)]
  decide

/-- Claim C9: running the builder on a realm registers the constructed
harness object on that realm global object under the reserved key `$262`
with empty attributes (writable, enumerable and configurable all false),
and returns a reference to the registered object. -/
theorem init_registers (ctx : Context) (w : World)
    (ps : List (String × JsValue × PropertyAttr))
    (hg : lookupObj w.heap ctx.globalObj = some (.globalObj ps))
    (hlt : ctx.globalObj < w.nextId) :
    (init ctx w).1 = w.nextId ∧
    lookupObj (init ctx w).2.heap ctx.globalObj =
      some (.globalObj (("$262", JsValue.object (init ctx w).1, attrEmpty) :: ps)) ∧
    lookupObj (init ctx w).2.heap (init ctx w).1 =
      some (.harness
        [ .func "createRealm" .createRealm 0,
          .func "detachArrayBuffer" .detachArrayBuffer 2,
          .func "evalScript" .evalScript 1,
          .func "gc" .gc 0,
          .data "global" (.object ctx.globalObj) attrDefault ]) ∧
    attrEmpty = ⟨false, false, false⟩ := by
  have hne : w.nextId ≠ ctx.globalObj := (Nat.ne_of_lt hlt).symm
  have hl1 : lookupObj ((w.nextId,
      ObjectData.harness
        [ .func "createRealm" .createRealm 0,
          .func "detachArrayBuffer" .detachArrayBuffer 2,
          .func "evalScript" .evalScript 1,
          .func "gc" .gc 0,
          .data "global" (.object ctx.globalObj) attrDefault ]) :: w.heap)
      ctx.globalObj = some (.globalObj ps) := by
    simp [lookupObj, hne, hg]
  have heq : init ctx w = (w.nextId, ⟨w.nextId + 1,
      updateObj ((w.nextId,
        ObjectData.harness
          [ .func "createRealm" .createRealm 0,
            .func "detachArrayBuffer" .detachArrayBuffer 2,
            .func "evalScript" .evalScript 1,
            .func "gc" .gc 0,
            .data "global" (.object ctx.globalObj) attrDefault ]) :: w.heap)
        ctx.globalObj
        (.globalObj (("$262", JsValue.object w.nextId, attrEmpty) :: ps))⟩) := by
    simp [init, alloc, register_global_property, hl1]
  rw [heq]
  refine ⟨rfl, ?_, ?_, rfl⟩
  · exact lookupObj_updateObj_self _ _ _ _ hl1
  · rw [lookupObj_updateObj_other _ _ _ _ (fun he => hne he.symm)]
    simp [lookupObj]

/-- Fixture world for the builder witnesses: one realm whose global object
is object 0 with no registered properties. -/
def world0 : World := ⟨1, [(0, .globalObj [])]⟩

/-- Witness for C9 on the fixture realm. -/
theorem init_registers_witness :
    (init ⟨0⟩ world0).1 = world0.nextId ∧
    lookupObj (init ⟨0⟩ world0).2.heap 0 =
      some (.globalObj [("$262", JsValue.object (init ⟨0⟩ world0).1, attrEmpty)]) ∧
    lookupObj (init ⟨0⟩ world0).2.heap (init ⟨0⟩ world0).1 =
      some (.harness
        [ .func "createRealm" .createRealm 0,
          .func "detachArrayBuffer" .detachArrayBuffer 2,
          .func "evalScript" .evalScript 1,
          .func "gc" .gc 0,
          .data "global" (.object 0) attrDefault ]) ∧
    attrEmpty = ⟨false, false, false⟩ :=
  init_registers ⟨0⟩ world0 [] rfl (by decide)

/-- Claim C6: createRealm always succeeds, whatever the arguments, and
returns the harness object of the new realm (not its global object); the
`global` property of that harness object refers to the fresh global, which
is not reference-identical to the calling realm global object, and the
nested createRealm member is among its callable function properties. -/
theorem create_realm_spec (args : List JsValue) (w : World)
    (callerGlobal : Nat) (h : callerGlobal < w.nextId) :
    (create_realm args w).1 = .ok (.object (w.nextId + 1)) ∧
    lookupObj (create_realm args w).2.heap (w.nextId + 1) =
      some (.harness
        [ .func "createRealm" .createRealm 0,
          .func "detachArrayBuffer" .detachArrayBuffer 2,
          .func "evalScript" .evalScript 1,
          .func "gc" .gc 0,
          .data "global" (.object w.nextId) attrDefault ]) ∧
    w.nextId ≠ callerGlobal ∧
    w.nextId + 1 ≠ w.nextId ∧
    HarnessProp.func "createRealm" HostFunc.createRealm 0 ∈
      [ HarnessProp.func "createRealm" HostFunc.createRealm 0,
        .func "detachArrayBuffer" .detachArrayBuffer 2,
        .func "evalScript" .evalScript 1,
        .func "gc" .gc 0,
        .data "global" (.object w.nextId) attrDefault ] := by
  refine ⟨?_, ?_, (Nat.ne_of_lt h).symm, Nat.succ_ne_self _, by simp⟩
  · simp [create_realm, Context.default, alloc, init, register_global_property,
      lookupObj, updateObj]
  · simp [create_realm, Context.default, alloc, init, register_global_property,
      lookupObj, updateObj]

/-- Witness for C6 on the fixture realm. -/
theorem create_realm_spec_witness :
    (create_realm [] world0).1 = .ok (.object 2) ∧
    (1 : Nat) ≠ 0 :=
  ⟨(create_realm_spec [] world0 0 (by decide)).1,
   (create_realm_spec [] world0 0 (by decide)).2.2.1⟩

end Js262
